import Mathlib

/-!
Shallow embedding of the AI-Tutor-Orchestrator core pipeline
(src/models.py, src/parameter_extractor.py, src/orchestrator.py).

Python `Optional[T]` becomes `Option T`; pydantic `Literal` enumerations
become inductives; dict payloads in the final response become `Option`
of the structured value (`none` models the empty dict `{}`); Python
exceptions become `Except String`; the external LLM call and the
external tool calls are injected as explicit arguments, since they are
opaque collaborators of the core.  Python truthiness of strings, lists
and optionals is modelled explicitly (`None` and `""` are falsy, a
non-empty list is truthy).
-/

namespace Tutor

/-- models.py `ToolSelection` (str Enum). -/
inductive ToolSelection where
  | NOTE_MAKER
  | FLASHCARD_GENERATOR
  | CONCEPT_EXPLAINER
  | NONE
  deriving DecidableEq, Repr

/-- The `.value` of the str enum `ToolSelection`. -/
def ToolSelection.value : ToolSelection → String
  | .NOTE_MAKER => "note_maker"
  | .FLASHCARD_GENERATOR => "flashcard_generator"
  | .CONCEPT_EXPLAINER => "concept_explainer"
  | .NONE => "none"

/-- models.py `Literal["outline", "bullet_points", "narrative", "structured"]`. -/
inductive NoteStyle where
  | outline
  | bullet_points
  | narrative
  | structured
  deriving DecidableEq, Repr

/-- models.py `Literal["easy", "medium", "hard"]`. -/
inductive Difficulty where
  | easy
  | medium
  | hard
  deriving DecidableEq, Repr

/-- models.py `Literal["basic", "intermediate", "advanced", "comprehensive"]`. -/
inductive Depth where
  | basic
  | intermediate
  | advanced
  | comprehensive
  deriving DecidableEq, Repr

/-- models.py `Literal["user", "assistant"]` for `ChatMessage.role`. -/
inductive Role where
  | user
  | assistant
  deriving DecidableEq, Repr

def Role.toStr : Role → String
  | .user => "user"
  | .assistant => "assistant"

/-- models.py `UserInfo`. -/
structure UserInfo where
  user_id : String
  name : String
  grade_level : String
  learning_style_summary : String
  emotional_state_summary : String
  mastery_level_summary : String
  deriving DecidableEq, Repr

/-- models.py `ChatMessage`. -/
structure ChatMessage where
  role : Role
  content : String
  deriving DecidableEq, Repr

/-- models.py `ExtractedParameters` (LLM-output schema).  `confidence` is a
pydantic float constrained to [0,1]; it is only ever compared to literal
values in the core, so it is embedded as a rational. -/
structure ExtractedParameters where
  tool_needed : ToolSelection
  confidence : ℚ
  topic : Option String := none
  subject : Option String := none
  note_taking_style : Option NoteStyle := none
  include_examples : Bool := true
  include_analogies : Bool := false
  flashcard_count : Option Nat := none
  difficulty : Option Difficulty := none
  concept_to_explain : Option String := none
  desired_depth : Option Depth := none
  reasoning : String
  missing_parameters : List String := []
  deriving DecidableEq, Repr

/-- models.py `NoteMakerRequest`. -/
structure NoteMakerRequest where
  user_info : UserInfo
  chat_history : List ChatMessage
  topic : String
  subject : String
  note_taking_style : NoteStyle
  include_examples : Bool := true
  include_analogies : Bool := false
  deriving DecidableEq, Repr

/-- models.py `FlashcardRequest`; `count` carries the pydantic bounds
`ge=1, le=20` as a validation performed at construction time (below). -/
structure FlashcardRequest where
  user_info : UserInfo
  topic : String
  count : Nat
  difficulty : Difficulty
  subject : String
  include_examples : Bool := true
  deriving DecidableEq, Repr

/-- models.py `ConceptExplainerRequest`. -/
structure ConceptExplainerRequest where
  user_info : UserInfo
  chat_history : List ChatMessage
  concept_to_explain : String
  current_topic : String
  desired_depth : Depth
  deriving DecidableEq, Repr

/-! ### Python truthiness helpers -/

/-- Python truthiness of an `Optional[str]`: `None` and `""` are falsy. -/
def optStrTruthy : Option String → Bool
  | none => false
  | some s => !s.isEmpty

/-- Python `a or b` on two `Optional[str]` values. -/
def pyOrStr (a b : Option String) : Option String :=
  if optStrTruthy a then a else b

/-- Python `a or d` with a string literal default: yields `d` when `a` is
`None` or `""`. -/
def pyOrStrD (a : Option String) (d : String) : String :=
  match a with
  | none => d
  | some s => if s.isEmpty then d else s

/-- Python truthiness of an `Optional[int]`: `None` and `0` are falsy. -/
def optNatTruthy : Option Nat → Bool
  | none => false
  | some n => n ≠ 0

/-- Python truthiness of the `Optional[str]` pipeline error slot
(`state.get("error")`): a string is truthy exactly when its length is
non-zero. -/
def errTruthy : Option String → Bool
  | none => false
  | some s => s.length != 0

/-- Substring containment on character lists: `sub` occurs contiguously
somewhere in the list. -/
def listContainsSub (sub : List Char) : List Char → Bool
  | [] => sub.isEmpty
  | c :: rest => sub.isPrefixOf (c :: rest) || listContainsSub sub rest

/-- Python `sub in s`: substring containment on strings, via the
character lists. -/
def strContains (s sub : String) : Bool :=
  listContainsSub sub.toList s.toList

/-- Python `str.lower()`, character by character (ASCII lowering such as
`"Visual"` to `"visual"`), via the character list so that it reduces in
the kernel. -/
def strLower (s : String) : String :=
  String.mk (s.data.map Char.toLower)

/-! ### parameter_extractor.py -/

/-- parameter_extractor.py `ParameterExtractor._extract_mastery_number`,
the scan of `re.search(r'Level (\d+)', mastery_summary)`: the leftmost
position where the literal text `"Level "` is followed by at least one
digit; the captured group is the maximal run of digits there.  Returns
`none` when the pattern matches nowhere. -/
def findLevelNum : List Char → Option Nat
  | [] => none
  | c :: rest =>
    if "Level ".toList.isPrefixOf (c :: rest) then
      let after := (c :: rest).drop 6
      match after with
      | d :: _ =>
        if d.isDigit then
          some ((after.takeWhile Char.isDigit).foldl
            (fun a ch => a * 10 + (ch.toNat - 48)) 0)
        else findLevelNum rest
      | [] => findLevelNum rest
    else findLevelNum rest

/-- parameter_extractor.py `ParameterExtractor._extract_mastery_number`:
the regex-extracted level, defaulting to 5 (middle level) when the
pattern is absent. -/
def extract_mastery_number (mastery_summary : String) : Nat :=
  (findLevelNum mastery_summary.toList).getD 5

/-- parameter_extractor.py `ParameterExtractor.validate_and_fill_defaults`.
The Python method mutates `extracted` in place and returns it; the
embedding returns the updated record.  Python `if not x:` guards on the
optional fields are truthiness tests (`None`, `0` falsy). -/
def validate_and_fill_defaults (extracted : ExtractedParameters)
    (user_info : UserInfo) : ExtractedParameters :=
  -- If no tool needed, return as-is
  if extracted.tool_needed = ToolSelection.NONE then
    extracted
  else if extracted.tool_needed = ToolSelection.NOTE_MAKER then
    let e1 :=
      if !(extracted.note_taking_style.isSome) then
        -- Default based on learning style
        if strContains (strLower user_info.learning_style_summary) "visual" then
          { extracted with note_taking_style := some NoteStyle.structured }
        else
          { extracted with note_taking_style := some NoteStyle.outline }
      else extracted
    -- Visual learners get more examples/analogies
    if strContains (strLower user_info.learning_style_summary) "visual" then
      { e1 with include_examples := true, include_analogies := true }
    else e1
  else if extracted.tool_needed = ToolSelection.FLASHCARD_GENERATOR then
    let e1 :=
      if !(optNatTruthy extracted.flashcard_count) then
        { extracted with flashcard_count := some 5 }  -- Safe default
      else extracted
    if !(e1.difficulty.isSome) then
      -- Infer from mastery level
      let mastery_num := extract_mastery_number user_info.mastery_level_summary
      if mastery_num ≤ 3 then { e1 with difficulty := some Difficulty.easy }
      else if mastery_num ≤ 6 then { e1 with difficulty := some Difficulty.medium }
      else { e1 with difficulty := some Difficulty.hard }
    else e1
  else
    -- ToolSelection.CONCEPT_EXPLAINER
    if !(extracted.desired_depth.isSome) then
      let mastery_num := extract_mastery_number user_info.mastery_level_summary
      if mastery_num ≤ 3 then { extracted with desired_depth := some Depth.basic }
      else if mastery_num ≤ 6 then { extracted with desired_depth := some Depth.intermediate }
      else { extracted with desired_depth := some Depth.advanced }
    else extracted

/-- The fallback record built in the `except` clause of
`ParameterExtractor.extract`: all unset optional fields take their
pydantic defaults. -/
def parseFailureFallback (errText : String) : ExtractedParameters :=
  { tool_needed := ToolSelection.NONE
    confidence := 0
    reasoning := "Failed to parse LLM response: " ++ errText
    missing_parameters := ["all"] }

/-- parameter_extractor.py `ParameterExtractor.extract`.  The two external
effects are injected: `genResult` is the outcome of `self.llm.invoke`
(which may raise), and `parse` is the behaviour of
`self.output_parser.parse` on the returned content (which may raise).
In the source only the `parse` call sits inside the `try` block; the
LLM call is outside it, so an error there propagates to the caller
(modelled by `Except.error`). -/
def extract (genResult : Except String String)
    (parse : String → Except String ExtractedParameters) :
    Except String ExtractedParameters :=
  match genResult with
  | Except.error e => Except.error e
  | Except.ok content =>
    match parse content with
    | Except.ok extracted => Except.ok extracted
    | Except.error e => Except.ok (parseFailureFallback e)

/-- Python `l[-5:]`: the last (at most) five elements. -/
def lastN (n : Nat) (l : List α) : List α :=
  l.drop (l.length - n)

/-- parameter_extractor.py `ParameterExtractor._build_extraction_prompt`.
`fmtInstr` injects `self.output_parser.get_format_instructions()`,
a constant of the parser that does not depend on the arguments.
`prompt_template.format` performs literal substitution of the named
fields into the template text. -/
def build_extraction_prompt (message : String) (user_info : UserInfo)
    (chat_history : List ChatMessage) (fmtInstr : String) : String :=
  let history_text := String.intercalate "\n"
    ((lastN 5 chat_history).map
      (fun msg => msg.role.toStr.toUpper ++ ": " ++ msg.content))
  "\nYou are an intelligent parameter extraction system for an AI tutor orchestrator.\nYour job is to analyze student messages and determine:\n1. Which educational tool is needed (if any)\n2. What parameters to extract from the conversation\n3. What information is missing and needs clarification\n\nAVAILABLE TOOLS:\n- note_maker: Creates structured study notes on a topic\n- flashcard_generator: Creates practice flashcards\n- concept_explainer: Explains specific concepts in detail\n- none: No tool needed (just conversation)\n\nSTUDENT PROFILE:\nName: "
  ++ user_info.name
  ++ "\nGrade Level: " ++ user_info.grade_level
  ++ "\nLearning Style: " ++ user_info.learning_style_summary
  ++ "\nEmotional State: " ++ user_info.emotional_state_summary
  ++ "\nMastery Level: " ++ user_info.mastery_level_summary
  ++ "\n\nCONVERSATION HISTORY:\n"
  ++ (if history_text.isEmpty then "No previous messages" else history_text)
  ++ "\n\nCURRENT MESSAGE:\n" ++ message
  ++ "\n\nEXTRACTION RULES:\n\n1. **Tool Selection Logic**:\n   - \"I need notes on...\" or \"help me summarize...\" → note_maker\n   - \"I need practice\" or \"quiz me\" or \"flashcards\" → flashcard_generator\n   - \"What is...\" or \"explain...\" or \"I don't understand...\" → concept_explainer\n   - General chat, greetings, off-topic → none\n\n2. **Parameter Inference**:\n   - Topic/Subject: Extract from message (e.g., \"derivatives\" from \"help with derivatives\")\n   - Difficulty: Infer from mastery level and emotional state:\n     * Mastery Level 1-3 OR \"struggling/confused\" → easy\n     * Mastery Level 4-6 OR neutral → medium\n     * Mastery Level 7-10 OR \"confident/advanced\" → hard\n   - Count (flashcards): Default 5, or extract if mentioned (\"10 questions\")\n   - Note style: Default \"outline\", use \"bullet_points\" if mentioned\n   - Depth: Infer from question complexity:\n     * \"What is X?\" → basic\n     * \"Explain X\" → intermediate\n     * \"Deep dive into X\" or \"comprehensive\" → advanced/comprehensive\n\n3. **Personalization Adaptation**:\n   - If emotional_state contains \"anxious/confused\" → prefer easier difficulty\n   - If learning_style mentions \"visual\" → set include_examples=true, include_analogies=true\n   - If mastery_level is low → prefer \"basic\" depth\n\n4. **Missing Parameters**:\n   - If topic/subject unclear, add to missing_parameters\n   - If tool needs specific info not in message, note it\n\n"
  ++ fmtInstr
  ++ "\n\nRespond ONLY with valid JSON matching the schema. Be precise and confident.\n"

/-! ### orchestrator.py -/

/-- models.py `Flashcard`. -/
structure Flashcard where
  title : String
  question : String
  answer : String
  «example» : Option String := none
  deriving DecidableEq, Repr

/-- models.py `FlashcardResponse`. -/
structure FlashcardResponse where
  flashcards : List Flashcard
  topic : String
  adaptation_details : String
  difficulty : String
  deriving DecidableEq, Repr

/-- models.py `NoteSection`. -/
structure NoteSection where
  title : String
  content : String
  key_points : List String := []
  examples : List String := []
  analogies : List String := []
  deriving DecidableEq, Repr

/-- models.py `NoteMakerResponse`. -/
structure NoteMakerResponse where
  topic : String
  title : String
  summary : String
  note_sections : List NoteSection
  key_concepts : List String
  connections_to_prior_learning : List String
  practice_suggestions : List String
  source_references : List String := []
  note_taking_style : String
  deriving DecidableEq, Repr

/-- models.py `ConceptExplainerResponse`. -/
structure ConceptExplainerResponse where
  explanation : String
  examples : List String
  related_concepts : List String
  visual_aids : List String
  practice_questions : List String
  source_references : List String := []
  deriving DecidableEq, Repr

/-- The `tool_request` dict slot of the workflow state
(`request.model_dump()` of one of the three request shapes). -/
inductive ToolRequestData where
  | noteMaker (r : NoteMakerRequest)
  | flashcards (r : FlashcardRequest)
  | conceptExplainer (r : ConceptExplainerRequest)
  deriving DecidableEq, Repr

/-- The `tool_response` dict slot of the workflow state: either a tool
response `model_dump()` or the fixed informational dict written by
`handle_no_tool`. -/
inductive ToolResponseData where
  | noteMaker (r : NoteMakerResponse)
  | flashcards (r : FlashcardResponse)
  | conceptExplainer (r : ConceptExplainerResponse)
  | info (message : String)
  deriving DecidableEq, Repr

/-- models.py `OrchestratorResponse`.  The two dict fields keep their
structured values; `none` models the empty dict `{}`. -/
structure OrchestratorResponse where
  success : Bool
  tool_used : String
  extracted_parameters : Option ExtractedParameters
  tool_response : Option ToolResponseData
  message : String
  needs_clarification : Bool := false
  clarification_questions : List String := []
  deriving DecidableEq, Repr

/-- orchestrator.py `OrchestratorState`. -/
structure OrchestratorState where
  message : String
  user_info : UserInfo
  chat_history : List ChatMessage
  extracted_parameters : Option ExtractedParameters := none
  tool_request : Option ToolRequestData := none
  tool_response : Option ToolResponseData := none
  final_response : Option OrchestratorResponse := none
  error : Option String := none
  needs_clarification : Bool := false
  clarification_questions : List String := []
  deriving DecidableEq, Repr

/-- orchestrator.py `AITutorOrchestrator._generate_clarification_questions`:
one appended question per recognised missing-parameter name, in order;
the Python `questions or [...]` fallback fires exactly when the built
list is empty. -/
def generate_clarification_questions (extracted : ExtractedParameters) :
    List String :=
  let questions := extracted.missing_parameters.foldl
    (fun acc param =>
      if param = "topic" then
        acc ++ ["What specific topic would you like to focus on?"]
      else if param = "subject" then
        acc ++ ["Which subject area does this relate to?"]
      else if param = "difficulty" then
        acc ++ ["What difficulty level would you prefer? (easy, medium, or hard)"]
      else if param = "count" then
        acc ++ ["How many flashcards would you like? (1-20)"]
      else acc)
    []
  if questions.isEmpty then
    ["Could you provide more details about what you need?"]
  else questions

/-- orchestrator.py `AITutorOrchestrator.validate_parameters`.  A `None`
`extracted_parameters` slot sets the error flag; otherwise a non-empty
(truthy) `missing_parameters` list raises the clarification flag. -/
def validate_parameters (state : OrchestratorState) : OrchestratorState :=
  match state.extracted_parameters with
  | none => { state with error := some "No parameters extracted" }
  | some extracted =>
    if !extracted.missing_parameters.isEmpty then
      { state with
          needs_clarification := true
          clarification_questions := generate_clarification_questions extracted }
    else
      { state with needs_clarification := false }

/-- orchestrator.py `AITutorOrchestrator.route_after_validation`.  The
source reads `state["extracted_parameters"].tool_needed` after the two
flag checks; when that slot is `None` this access raises, modelled by
`none`. -/
def route_after_validation (state : OrchestratorState) : Option String :=
  if errTruthy state.error then some "error"
  else if state.needs_clarification then some "needs_clarification"
  else
    state.extracted_parameters.map (fun extracted =>
      match extracted.tool_needed with
      | ToolSelection.NOTE_MAKER => "note_maker"
      | ToolSelection.FLASHCARD_GENERATOR => "flashcard_generator"
      | ToolSelection.CONCEPT_EXPLAINER => "concept_explainer"
      | ToolSelection.NONE => "no_tool")

/-- The `NoteMakerRequest(...)` construction in `execute_note_maker`,
with pydantic validation: `topic` and `note_taking_style` are required
non-optional fields, so passing `None` raises a validation error inside
the branch's `try` block. -/
def buildNoteMakerRequest (user_info : UserInfo)
    (chat_history : List ChatMessage) (extracted : ExtractedParameters) :
    Except String NoteMakerRequest :=
  match extracted.topic, extracted.note_taking_style with
  | some t, some style =>
    Except.ok
      { user_info := user_info
        chat_history := chat_history
        topic := t
        subject := pyOrStrD (pyOrStr extracted.subject extracted.topic) "General"
        note_taking_style := style
        include_examples := extracted.include_examples
        include_analogies := extracted.include_analogies }
  | _, _ => Except.error "validation error for NoteMakerRequest"

/-- The `FlashcardRequest(...)` construction in
`execute_flashcard_generator`, with pydantic validation: `topic`,
`count` and `difficulty` are required, and `count` must lie in 1..20. -/
def buildFlashcardRequest (user_info : UserInfo)
    (extracted : ExtractedParameters) : Except String FlashcardRequest :=
  match extracted.topic, extracted.flashcard_count, extracted.difficulty with
  | some t, some c, some d =>
    if 1 ≤ c ∧ c ≤ 20 then
      Except.ok
        { user_info := user_info
          topic := t
          count := c
          difficulty := d
          subject := pyOrStrD (pyOrStr extracted.subject extracted.topic) "General"
          include_examples := extracted.include_examples }
    else Except.error "validation error for FlashcardRequest"
  | _, _, _ => Except.error "validation error for FlashcardRequest"

/-- The `ConceptExplainerRequest(...)` construction in
`execute_concept_explainer`, with pydantic validation: the two string
arguments are the Python `or`-fallbacks and must not be `None`, and
`desired_depth` is required. -/
def buildConceptExplainerRequest (user_info : UserInfo)
    (chat_history : List ChatMessage) (extracted : ExtractedParameters) :
    Except String ConceptExplainerRequest :=
  match pyOrStr extracted.concept_to_explain extracted.topic,
        pyOrStr extracted.subject extracted.topic,
        extracted.desired_depth with
  | some c, some t, some d =>
    Except.ok
      { user_info := user_info
        chat_history := chat_history
        concept_to_explain := c
        current_topic := t
        desired_depth := d }
  | _, _, _ => Except.error "validation error for ConceptExplainerRequest"

/-- orchestrator.py `AITutorOrchestrator.execute_note_maker`.  The
external `tool_client.call_note_maker` is injected as `toolCall`; any
exception inside the `try` block (request validation or the call) is
caught and recorded in the state's error slot. -/
def execute_note_maker
    (toolCall : NoteMakerRequest → Except String NoteMakerResponse)
    (state : OrchestratorState) : OrchestratorState :=
  match state.extracted_parameters with
  | none =>
    -- `extracted.topic` on None raises AttributeError, caught by `except`
    { state with
        error := some "Tool execution failed: NoneType object has no attribute" }
  | some extracted =>
    match buildNoteMakerRequest state.user_info state.chat_history extracted with
    | Except.error e => { state with error := some ("Tool execution failed: " ++ e) }
    | Except.ok request =>
      match toolCall request with
      | Except.error e => { state with error := some ("Tool execution failed: " ++ e) }
      | Except.ok response =>
        { state with
            tool_request := some (ToolRequestData.noteMaker request)
            tool_response := some (ToolResponseData.noteMaker response) }

/-- orchestrator.py `AITutorOrchestrator.execute_flashcard_generator`,
with the external tool call injected. -/
def execute_flashcard_generator
    (toolCall : FlashcardRequest → Except String FlashcardResponse)
    (state : OrchestratorState) : OrchestratorState :=
  match state.extracted_parameters with
  | none =>
    { state with
        error := some "Tool execution failed: NoneType object has no attribute" }
  | some extracted =>
    match buildFlashcardRequest state.user_info extracted with
    | Except.error e => { state with error := some ("Tool execution failed: " ++ e) }
    | Except.ok request =>
      match toolCall request with
      | Except.error e => { state with error := some ("Tool execution failed: " ++ e) }
      | Except.ok response =>
        { state with
            tool_request := some (ToolRequestData.flashcards request)
            tool_response := some (ToolResponseData.flashcards response) }

/-- orchestrator.py `AITutorOrchestrator.execute_concept_explainer`,
with the external tool call injected. -/
def execute_concept_explainer
    (toolCall : ConceptExplainerRequest → Except String ConceptExplainerResponse)
    (state : OrchestratorState) : OrchestratorState :=
  match state.extracted_parameters with
  | none =>
    { state with
        error := some "Tool execution failed: NoneType object has no attribute" }
  | some extracted =>
    match buildConceptExplainerRequest state.user_info state.chat_history extracted with
    | Except.error e => { state with error := some ("Tool execution failed: " ++ e) }
    | Except.ok request =>
      match toolCall request with
      | Except.error e => { state with error := some ("Tool execution failed: " ++ e) }
      | Except.ok response =>
        { state with
            tool_request := some (ToolRequestData.conceptExplainer request)
            tool_response := some (ToolResponseData.conceptExplainer response) }

/-- orchestrator.py `AITutorOrchestrator.handle_no_tool`. -/
def handle_no_tool (state : OrchestratorState) : OrchestratorState :=
  { state with tool_response := some (ToolResponseData.info
      "I'm here to help! Feel free to ask about concepts, request notes, or practice with flashcards.") }

/-- Python `str(x)` of an `Optional[str]` (dict `.get` may yield `None`,
printed as `None` inside an f-string). -/
def optStrRepr : Option String → String
  | none => "None"
  | some s => s

/-- `tool_response.get("topic")` on the dict slot. -/
def dumpTopic : ToolResponseData → Option String
  | ToolResponseData.noteMaker r => some r.topic
  | ToolResponseData.flashcards r => some r.topic
  | ToolResponseData.conceptExplainer _ => none
  | ToolResponseData.info _ => none

/-- `tool_response.get("flashcards", [])` on the dict slot. -/
def dumpFlashcards : ToolResponseData → List Flashcard
  | ToolResponseData.flashcards r => r.flashcards
  | _ => []

/-- orchestrator.py `AITutorOrchestrator._generate_success_message`. -/
def generate_success_message (tool_name : String)
    (tool_response : Option ToolResponseData) : String :=
  if tool_name = "note_maker" then
    "I've created structured notes on **"
      ++ optStrRepr (tool_response.bind dumpTopic)
      ++ "** for you! Check out the sections below."
  else if tool_name = "flashcard_generator" then
    let count := ((tool_response.map dumpFlashcards).getD []).length
    let topic := optStrRepr (tool_response.bind dumpTopic)
    "I've generated **" ++ toString count ++ " flashcards** on " ++ topic
      ++ " to help you practice!"
  else if tool_name = "concept_explainer" then
    "Here's an explanation of the concept you asked about. Let me know if you need more detail!"
  else
    "I'm here to help! What would you like to learn about?"

/-- orchestrator.py `AITutorOrchestrator.format_response`. -/
def format_response (state : OrchestratorState) : OrchestratorState :=
  let extracted := state.extracted_parameters
  if errTruthy state.error then
    let resp : OrchestratorResponse :=
      { success := false
        tool_used := "none"
        extracted_parameters := none
        tool_response := none
        message := "Sorry, something went wrong: " ++ state.error.getD ""
        needs_clarification := false }
    { state with final_response := some resp }
  else if state.needs_clarification then
    let resp : OrchestratorResponse :=
      { success := false
        tool_used := "none"
        extracted_parameters := extracted
        tool_response := none
        message := "I need a bit more information to help you better."
        needs_clarification := true
        clarification_questions := state.clarification_questions }
    { state with final_response := some resp }
  else
    let tool_name := match extracted with
      | some e => e.tool_needed.value
      | none => "none"
    let resp : OrchestratorResponse :=
      { success := true
        tool_used := tool_name
        extracted_parameters := extracted
        tool_response := state.tool_response
        message := generate_success_message tool_name state.tool_response
        needs_clarification := false }
    { state with final_response := some resp }

/-! ### Derived characterisations and sample inputs -/

/-- The fixed question lookup of `_generate_clarification_questions`,
as a partial map from missing-parameter names to question strings. -/
def clarificationLookup (param : String) : Option String :=
  if param = "topic" then
    some "What specific topic would you like to focus on?"
  else if param = "subject" then
    some "Which subject area does this relate to?"
  else if param = "difficulty" then
    some "What difficulty level would you prefer? (easy, medium, or hard)"
  else if param = "count" then
    some "How many flashcards would you like? (1-20)"
  else none

/-- `Except.error` outcomes model a Python exception escaping the
function. -/
def raisesOut : Except String ExtractedParameters → Bool
  | Except.error _ => true
  | Except.ok _ => false

/-- A sample learner profile whose learning-style summary mentions
"Visual". -/
def uiSample : UserInfo :=
  { user_id := "student123"
    name := "Alice"
    grade_level := "11"
    learning_style_summary := "Visual learner, prefers diagrams"
    emotional_state_summary := "Slightly anxious but motivated"
    mastery_level_summary := "Level 5 - Developing competence" }

/-- A sample learner profile with no "visual" keyword and an
unparseable mastery summary. -/
def uiPlain : UserInfo :=
  { user_id := "student456"
    name := "Bob"
    grade_level := "9"
    learning_style_summary := "Prefers reading and writing"
    emotional_state_summary := "Focused"
    mastery_level_summary := "Beginner overall" }

/-- The C5/scenario extraction result: flashcards on "derivatives" with
no subject and nothing missing. -/
def exScenario : ExtractedParameters :=
  { tool_needed := ToolSelection.FLASHCARD_GENERATOR
    confidence := 9/10
    topic := some "derivatives"
    subject := none
    flashcard_count := some 5
    difficulty := some Difficulty.medium
    reasoning := "practice request"
    missing_parameters := [] }

/-- An extraction result with missing parameters, used to instantiate
the routing and clarification theorems. -/
def exMissing : ExtractedParameters :=
  { tool_needed := ToolSelection.FLASHCARD_GENERATOR
    confidence := 1/2
    topic := none
    reasoning := "topic unclear"
    missing_parameters := ["topic", "count"] }

/-- An extraction result routed to the flashcard branch with an unset
(`None`) topic and nothing missing. -/
def exNoTopic : ExtractedParameters :=
  { tool_needed := ToolSelection.FLASHCARD_GENERATOR
    confidence := 8/10
    topic := none
    flashcard_count := some 5
    difficulty := some Difficulty.medium
    reasoning := "practice request without a topic"
    missing_parameters := [] }

/-- A workflow state carrying a given extraction result, as it stands
after `analyze_message` succeeded. -/
def stateOf (e : ExtractedParameters) : OrchestratorState :=
  { message := "I need practice with derivatives"
    user_info := uiSample
    chat_history := []
    extracted_parameters := some e }

/-- The request the flashcard branch builds from `exScenario`. -/
def reqScenario : FlashcardRequest :=
  { user_info := uiSample
    topic := "derivatives"
    count := 5
    difficulty := Difficulty.medium
    subject := "derivatives"
    include_examples := true }

/-- A note-maker extraction result with an unset note style. -/
def exNote : ExtractedParameters :=
  { tool_needed := ToolSelection.NOTE_MAKER
    confidence := 7/10
    topic := some "photosynthesis"
    reasoning := "notes requested"
    missing_parameters := [] }

/-- The response shape assembled by the error branch of
`format_response`: `success=false`, `tool_used="none"`, empty
parameter and response maps, and a message prefixed
"Sorry, something went wrong: " followed by the recorded error text. -/
def errorResponse (errText : String) : OrchestratorResponse :=
  { success := false
    tool_used := "none"
    extracted_parameters := none
    tool_response := none
    message := "Sorry, something went wrong: " ++ errText
    needs_clarification := false }

/-- A six-turn conversation history. -/
def histSix : List ChatMessage :=
  [ { role := Role.user, content := "Hi" }
  , { role := Role.assistant, content := "Hello! How can I help?" }
  , { role := Role.user, content := "Can you help me with math?" }
  , { role := Role.assistant, content := "Of course! What topic?" }
  , { role := Role.user, content := "Calculus" }
  , { role := Role.assistant, content := "Great, which part of calculus?" } ]

/-- The last five turns of `histSix`, as a standalone history. -/
def histFive : List ChatMessage :=
  [ { role := Role.assistant, content := "Hello! How can I help?" }
  , { role := Role.user, content := "Can you help me with math?" }
  , { role := Role.assistant, content := "Of course! What topic?" }
  , { role := Role.user, content := "Calculus" }
  , { role := Role.assistant, content := "Great, which part of calculus?" } ]

/-- A stub flashcard tool that always succeeds, echoing the request
topic. -/
def stubFlashcardTool (r : FlashcardRequest) :
    Except String FlashcardResponse :=
  Except.ok
    { flashcards := []
      topic := r.topic
      adaptation_details := ""
      difficulty := "medium" }

/-! ## Theorems -/

/-- The error messages recorded by the tool-execution branches are
non-empty, hence truthy for the error-flag check of
`route_after_validation` and `format_response`. -/
theorem errTruthy_tool_failed (msg : String) :
    errTruthy (some ("Tool execution failed: " ++ msg)) = true := by
  have hlen : ("Tool execution failed: " : String).length = 23 := rfl
  have h : ("Tool execution failed: " ++ msg).length ≠ 0 := by
    rw [String.length_append, hlen]
    omega
  simp only [errTruthy, bne_iff_ne, ne_eq, decide_not]
  simpa using h

/-- C1, counterexample: when the underlying text-generation call itself
fails, `extract` propagates the exception instead of returning the
safe `tool_needed=NONE` record — it does not "never raise".  (Only the
parse of the LLM output sits inside the `try` block in the source.) -/
theorem c1_counterexample :
    raisesOut (extract (Except.error "connection error")
      (fun _ => Except.error "unparseable")) = true := rfl

/-- C1, amended: any failure to parse the text-generation output is
caught inside `extract` and converted to the record with
`tool_needed=NONE`, `confidence=0.0`, `missing_parameters=["all"]` and
a reasoning string describing the failure; but a failure of the
text-generation call itself is not caught there and propagates to the
caller. -/
theorem c1_parse_failure_fallback (content perr gerr : String)
    (parse : String → Except String ExtractedParameters)
    (hp : parse content = Except.error perr) :
    extract (Except.ok content) parse = Except.ok (parseFailureFallback perr)
    ∧ (parseFailureFallback perr).tool_needed = ToolSelection.NONE
    ∧ (parseFailureFallback perr).confidence = 0
    ∧ (parseFailureFallback perr).missing_parameters = ["all"]
    ∧ (parseFailureFallback perr).reasoning
        = "Failed to parse LLM response: " ++ perr
    ∧ extract (Except.error gerr) parse = Except.error gerr := by
  refine ⟨?_, rfl, rfl, rfl, rfl, rfl⟩
  simp [extract, hp]

/-- C1, witness for the amended statement at a concrete malformed
output. -/
theorem c1_parse_failure_fallback_witness :
    extract (Except.ok "not json") (fun _ => Except.error "boom")
      = Except.ok (parseFailureFallback "boom") :=
  (c1_parse_failure_fallback "not json" "boom" "timeout"
    (fun _ => Except.error "boom") rfl).1

/-- C2: in a validated state with no pipeline error flag, a non-empty
`missing_parameters` list always routes to the clarification branch,
whatever the value of `tool_needed` (including NONE). -/
theorem c2_missing_parameters_route_to_clarification
    (state : OrchestratorState) (e : ExtractedParameters)
    (herr : errTruthy state.error = false)
    (hex : state.extracted_parameters = some e)
    (hmiss : e.missing_parameters ≠ []) :
    route_after_validation (validate_parameters state)
      = some "needs_clarification" := by
  simp only [validate_parameters, hex]
  rw [if_pos]
  · simp [route_after_validation, herr]
  · simpa using hmiss

/-- C2, witness: a flashcard extraction with missing parameters routes
to clarification. -/
theorem c2_missing_parameters_route_to_clarification_witness :
    route_after_validation (validate_parameters (stateOf exMissing))
      = some "needs_clarification" :=
  c2_missing_parameters_route_to_clarification (stateOf exMissing) exMissing
    rfl rfl (by simp [exMissing])

/-- C3: for a flashcard extraction with unset difficulty, the filled
difficulty is derived from the mastery number M matched as "Level <int>"
in the profile's mastery summary (easy for M≤3, medium for 4≤M≤6, hard
for M≥7); when the pattern is absent M defaults to 5, so an unparseable
summary yields "medium". -/
theorem c3_flashcard_difficulty_default (e : ExtractedParameters)
    (ui : UserInfo)
    (htool : e.tool_needed = ToolSelection.FLASHCARD_GENERATOR)
    (hdiff : e.difficulty = none) :
    (validate_and_fill_defaults e ui).difficulty =
      some (if extract_mastery_number ui.mastery_level_summary ≤ 3 then
              Difficulty.easy
            else if extract_mastery_number ui.mastery_level_summary ≤ 6 then
              Difficulty.medium
            else Difficulty.hard)
    ∧ (findLevelNum ui.mastery_level_summary.toList = none →
        (validate_and_fill_defaults e ui).difficulty = some Difficulty.medium) := by
  have key : (validate_and_fill_defaults e ui).difficulty =
      some (if extract_mastery_number ui.mastery_level_summary ≤ 3 then
              Difficulty.easy
            else if extract_mastery_number ui.mastery_level_summary ≤ 6 then
              Difficulty.medium
            else Difficulty.hard) := by
    simp only [validate_and_fill_defaults, htool]
    norm_num
    split_ifs with h1 h2 h3 h4 h5 h6 h7 <;>
      simp_all [apply_ite (f := ExtractedParameters.difficulty)]
  refine ⟨key, fun hnone => ?_⟩
  have hnone' : findLevelNum ui.mastery_level_summary.data = none := hnone
  have h5 : extract_mastery_number ui.mastery_level_summary = 5 := by
    simp [extract_mastery_number, String.toList, hnone']
  rw [key, h5]
  norm_num

/-- C3, witness: an unparseable mastery summary fills "medium". -/
theorem c3_flashcard_difficulty_default_witness :
    (validate_and_fill_defaults exMissing uiPlain).difficulty
      = some Difficulty.medium :=
  (c3_flashcard_difficulty_default exMissing uiPlain rfl rfl).2 (by decide)

/-- C4: for a note-maker extraction and a profile whose learning-style
summary contains "visual" (case-insensitively), the filled result has
`include_examples = true` and `include_analogies = true` whatever their
prior values, and an unset note style becomes "structured" (versus
"outline" for a profile without the keyword). -/
theorem c4_visual_note_defaults (e : ExtractedParameters)
    (ui uiNon : UserInfo)
    (htool : e.tool_needed = ToolSelection.NOTE_MAKER)
    (hvis : strContains (strLower ui.learning_style_summary) "visual" = true)
    (hnon : strContains (strLower uiNon.learning_style_summary) "visual" = false) :
    (validate_and_fill_defaults e ui).include_examples = true
    ∧ (validate_and_fill_defaults e ui).include_analogies = true
    ∧ (e.note_taking_style = none →
        (validate_and_fill_defaults e ui).note_taking_style
          = some NoteStyle.structured)
    ∧ (e.note_taking_style = none →
        (validate_and_fill_defaults e uiNon).note_taking_style
          = some NoteStyle.outline) := by
  refine ⟨?_, ?_, fun hstyle => ?_, fun hstyle => ?_⟩
  · simp [validate_and_fill_defaults, htool, hvis,
      apply_ite (f := ExtractedParameters.include_examples)]
  · simp [validate_and_fill_defaults, htool, hvis,
      apply_ite (f := ExtractedParameters.include_analogies)]
  · simp [validate_and_fill_defaults, htool, hvis, hstyle,
      apply_ite (f := ExtractedParameters.note_taking_style)]
  · simp [validate_and_fill_defaults, htool, hnon, hstyle,
      apply_ite (f := ExtractedParameters.note_taking_style)]

/-- C4, witness: a "Visual learner" profile forces examples/analogies
and a structured default note style; a plain profile defaults to
outline. -/
theorem c4_visual_note_defaults_witness :
    (validate_and_fill_defaults exNote uiSample).include_examples = true
    ∧ (validate_and_fill_defaults exNote uiSample).include_analogies = true
    ∧ (validate_and_fill_defaults exNote uiSample).note_taking_style
        = some NoteStyle.structured
    ∧ (validate_and_fill_defaults exNote uiPlain).note_taking_style
        = some NoteStyle.outline := by
  have h := c4_visual_note_defaults exNote uiSample uiPlain rfl
    (by decide) (by decide)
  exact ⟨h.1, h.2.1, h.2.2.1 rfl, h.2.2.2 rfl⟩

/-- C8: `validate_and_fill_defaults` is the identity on every extraction
result whose tool is NONE. -/
theorem c8_no_tool_identity (e : ExtractedParameters) (ui : UserInfo)
    (h : e.tool_needed = ToolSelection.NONE) :
    validate_and_fill_defaults e ui = e := by
  simp [validate_and_fill_defaults, h]

/-- C8, witness at a concrete NONE record and profile. -/
theorem c8_no_tool_identity_witness :
    validate_and_fill_defaults (parseFailureFallback "oops") uiSample
      = parseFailureFallback "oops" :=
  c8_no_tool_identity (parseFailureFallback "oops") uiSample rfl

/-- C5: every successfully built tool request applies the documented
fallbacks — `subject or topic or "General"` for the note-maker and
flashcard branches, `concept_to_explain or topic` and
`subject or topic` for the concept-explainer branch — and, in
particular, the scenario extraction (flashcards on "derivatives" with
no subject, count 5) builds a request with subject "derivatives" and
count 5. -/
theorem c5_request_field_substitutions (ui : UserInfo)
    (hist : List ChatMessage) (e : ExtractedParameters) :
    (∀ reqN, buildNoteMakerRequest ui hist e = Except.ok reqN →
      reqN.subject = pyOrStrD (pyOrStr e.subject e.topic) "General")
    ∧ (∀ reqF, buildFlashcardRequest ui e = Except.ok reqF →
      reqF.subject = pyOrStrD (pyOrStr e.subject e.topic) "General")
    ∧ (∀ reqC, buildConceptExplainerRequest ui hist e = Except.ok reqC →
      some reqC.concept_to_explain = pyOrStr e.concept_to_explain e.topic
      ∧ some reqC.current_topic = pyOrStr e.subject e.topic)
    ∧ buildFlashcardRequest ui exScenario
        = Except.ok { reqScenario with user_info := ui }
    ∧ reqScenario.subject = "derivatives" ∧ reqScenario.count = 5 := by
  refine ⟨?_, ?_, ?_, ?_, rfl, rfl⟩
  · intro reqN h
    rcases htop : e.topic with _ | t <;>
      rcases hsty : e.note_taking_style with _ | sty <;>
      simp_all [buildNoteMakerRequest]
    subst h
    rfl
  · intro reqF h
    rcases htop : e.topic with _ | t <;>
      rcases hcnt : e.flashcard_count with _ | c <;>
      rcases hdif : e.difficulty with _ | d <;>
      simp_all [buildFlashcardRequest]
    split at h
    · injection h with h
      subst h
      rfl
    · simp at h
  · intro reqC h
    rcases hcon : pyOrStr e.concept_to_explain e.topic with _ | cv <;>
      rcases hcur : pyOrStr e.subject e.topic with _ | tv <;>
      rcases hdep : e.desired_depth with _ | dv <;>
      simp_all [buildConceptExplainerRequest]
    subst h
    exact ⟨rfl, rfl⟩
  · rfl

/-- C5, witness: the scenario request carries the topic-fallback subject
and the extracted count. -/
theorem c5_request_field_substitutions_witness :
    reqScenario.subject
      = pyOrStrD (pyOrStr exScenario.subject exScenario.topic) "General" :=
  (c5_request_field_substitutions uiSample [] exScenario).2.1 reqScenario
    ((c5_request_field_substitutions uiSample [] exScenario).2.2.2.1)

/-- A state whose error slot holds a recorded tool failure is assembled
into the error response shape. -/
theorem format_response_error (state : OrchestratorState) (msg : String)
    (h : state.error = some ("Tool execution failed: " ++ msg)) :
    (format_response state).final_response
      = some (errorResponse ("Tool execution failed: " ++ msg)) := by
  simp [format_response, h, errTruthy_tool_failed, errorResponse]

/-- C6: whenever the external tool call of a tool-execution branch
fails, the branch records the failure in the pipeline error slot
instead of raising, and response assembly then yields the error
response: `success=false`, `tool_used="none"`, empty parameter and
response maps, and the message "Sorry, something went wrong: " followed
by the recorded error text. -/
theorem c6_tool_failure_to_error_response (state : OrchestratorState)
    (ex : ExtractedParameters)
    (hex : state.extracted_parameters = some ex) :
    (∀ fN reqN msg,
      buildNoteMakerRequest state.user_info state.chat_history ex
        = Except.ok reqN →
      fN reqN = Except.error msg →
      (execute_note_maker fN state).error
        = some ("Tool execution failed: " ++ msg)
      ∧ (format_response (execute_note_maker fN state)).final_response
        = some (errorResponse ("Tool execution failed: " ++ msg)))
    ∧ (∀ fF reqF msg,
      buildFlashcardRequest state.user_info ex = Except.ok reqF →
      fF reqF = Except.error msg →
      (execute_flashcard_generator fF state).error
        = some ("Tool execution failed: " ++ msg)
      ∧ (format_response (execute_flashcard_generator fF state)).final_response
        = some (errorResponse ("Tool execution failed: " ++ msg)))
    ∧ (∀ fC reqC msg,
      buildConceptExplainerRequest state.user_info state.chat_history ex
        = Except.ok reqC →
      fC reqC = Except.error msg →
      (execute_concept_explainer fC state).error
        = some ("Tool execution failed: " ++ msg)
      ∧ (format_response (execute_concept_explainer fC state)).final_response
        = some (errorResponse ("Tool execution failed: " ++ msg))) := by
  refine ⟨fun fN reqN msg hb hc => ?_, fun fF reqF msg hb hc => ?_,
    fun fC reqC msg hb hc => ?_⟩
  · have hexec : execute_note_maker fN state
        = { state with error := some ("Tool execution failed: " ++ msg) } := by
      simp [execute_note_maker, hex, hb, hc]
    rw [hexec]
    exact ⟨rfl, by simp [format_response, errTruthy_tool_failed, errorResponse]⟩
  · have hexec : execute_flashcard_generator fF state
        = { state with error := some ("Tool execution failed: " ++ msg) } := by
      simp [execute_flashcard_generator, hex, hb, hc]
    rw [hexec]
    exact ⟨rfl, by simp [format_response, errTruthy_tool_failed, errorResponse]⟩
  · have hexec : execute_concept_explainer fC state
        = { state with error := some ("Tool execution failed: " ++ msg) } := by
      simp [execute_concept_explainer, hex, hb, hc]
    rw [hexec]
    exact ⟨rfl, by simp [format_response, errTruthy_tool_failed, errorResponse]⟩

/-- C6, witness: a simulated network failure of the flashcard tool
produces the "Sorry, something went wrong" error response. -/
theorem c6_tool_failure_to_error_response_witness :
    (format_response (execute_flashcard_generator
        (fun _ => Except.error "network failure") (stateOf exScenario))).final_response
      = some (errorResponse ("Tool execution failed: " ++ "network failure")) :=
  ((c6_tool_failure_to_error_response (stateOf exScenario) exScenario rfl).2.1
    (fun _ => Except.error "network failure")
    { reqScenario with user_info := (stateOf exScenario).user_info }
    "network failure" rfl rfl).2

/-- The appending loop of `_generate_clarification_questions` builds
exactly the image of the fixed lookup over the recognised names, in
order. -/
theorem clarification_foldl (l acc : List String) :
    l.foldl
      (fun acc param =>
        if param = "topic" then
          acc ++ ["What specific topic would you like to focus on?"]
        else if param = "subject" then
          acc ++ ["Which subject area does this relate to?"]
        else if param = "difficulty" then
          acc ++ ["What difficulty level would you prefer? (easy, medium, or hard)"]
        else if param = "count" then
          acc ++ ["How many flashcards would you like? (1-20)"]
        else acc)
      acc
    = acc ++ l.filterMap clarificationLookup := by
  induction l generalizing acc with
  | nil => simp
  | cons p rest ih =>
    simp only [List.foldl_cons, ih, List.filterMap_cons, clarificationLookup]
    split_ifs <;> simp

/-- C7: the clarification-question list contains one question per
recognised missing-parameter name (`topic`, `subject`, `difficulty`,
`count`) in `missing_parameters` order, unknown names contribute
nothing, the generic fallback question replaces an empty list, and
`["topic", "count"]` yields exactly the topic and count questions in
that order. -/
theorem c7_clarification_questions (e : ExtractedParameters) :
    (e.missing_parameters.filterMap clarificationLookup ≠ [] →
      generate_clarification_questions e
        = e.missing_parameters.filterMap clarificationLookup)
    ∧ (e.missing_parameters.filterMap clarificationLookup = [] →
      generate_clarification_questions e
        = ["Could you provide more details about what you need?"])
    ∧ (e.missing_parameters = ["topic", "count"] →
      generate_clarification_questions e
        = ["What specific topic would you like to focus on?",
           "How many flashcards would you like? (1-20)"]) := by
  have hg : generate_clarification_questions e
      = if (e.missing_parameters.filterMap clarificationLookup).isEmpty then
          ["Could you provide more details about what you need?"]
        else e.missing_parameters.filterMap clarificationLookup := by
    simp [generate_clarification_questions, clarification_foldl]
  refine ⟨fun hne => ?_, fun hemp => ?_, fun hm => ?_⟩
  · rw [hg, if_neg]
    simp [List.isEmpty_iff, hne]
  · rw [hg, if_pos]
    simp [List.isEmpty_iff, hemp]
  · rw [hg, hm]
    simp [clarificationLookup]
/-- C7, witness: missing `["topic", "count"]` yields the two fixed
questions in order. -/
theorem c7_clarification_questions_witness :
    generate_clarification_questions exMissing
      = ["What specific topic would you like to focus on?",
         "How many flashcards would you like? (1-20)"] :=
  (c7_clarification_questions exMissing).2.2 rfl

/-- C9: the extraction prompt depends on the conversation history only
through its most recent five turns — two histories agreeing on their
last five turns produce identical prompts. -/
theorem c9_prompt_depends_on_last_five_turns (message : String)
    (ui : UserInfo) (fmt : String) (h1 h2 : List ChatMessage)
    (hlast : lastN 5 h1 = lastN 5 h2) :
    build_extraction_prompt message ui h1 fmt
      = build_extraction_prompt message ui h2 fmt := by
  simp only [build_extraction_prompt, hlast]

/-- C9, witness: a six-turn history and its five-turn tail give the same
prompt. -/
theorem c9_prompt_depends_on_last_five_turns_witness :
    build_extraction_prompt "Can you quiz me?" uiSample histSix "FORMAT"
      = build_extraction_prompt "Can you quiz me?" uiSample histFive "FORMAT" :=
  c9_prompt_depends_on_last_five_turns "Can you quiz me?" uiSample "FORMAT"
    histSix histFive rfl

/-- C10: a flashcard extraction with nothing missing but a `None` topic
cannot populate the required `topic` field of `FlashcardRequest`; the
construction fails validation inside the branch's try block, the
failure lands in the pipeline error slot without raising, and the final
response is the error shape (`success=false`, `tool_used="none"`,
message prefixed "Sorry, something went wrong:"). -/
theorem c10_flashcard_none_topic_error (state : OrchestratorState)
    (e : ExtractedParameters)
    (hex : state.extracted_parameters = some e)
    (_htool : e.tool_needed = ToolSelection.FLASHCARD_GENERATOR)
    (_hmiss : e.missing_parameters = [])
    (htopic : e.topic = none)
    (f : FlashcardRequest → Except String FlashcardResponse) :
    ∃ t, (execute_flashcard_generator f state).error = some t
      ∧ errTruthy (some t) = true
      ∧ (format_response (execute_flashcard_generator f state)).final_response
          = some (errorResponse t) := by
  have hb : buildFlashcardRequest state.user_info e
      = Except.error "validation error for FlashcardRequest" := by
    rcases hcnt : e.flashcard_count with _ | c <;>
      rcases hdif : e.difficulty with _ | d <;>
      simp [buildFlashcardRequest, htopic, hcnt, hdif]
  have hexec : execute_flashcard_generator f state
      = { state with error := some ("Tool execution failed: "
            ++ "validation error for FlashcardRequest") } := by
    simp [execute_flashcard_generator, hex, hb]
  refine ⟨"Tool execution failed: " ++ "validation error for FlashcardRequest",
    ?_, errTruthy_tool_failed _, ?_⟩
  · rw [hexec]
  · exact format_response_error _ "validation error for FlashcardRequest"
      (by rw [hexec])

/-- C10, witness: the concrete no-topic flashcard extraction yields the
error response even though the tool stub would succeed. -/
theorem c10_flashcard_none_topic_error_witness :
    ∃ t, (execute_flashcard_generator stubFlashcardTool
        (stateOf exNoTopic)).error = some t
      ∧ errTruthy (some t) = true
      ∧ (format_response (execute_flashcard_generator stubFlashcardTool
          (stateOf exNoTopic))).final_response = some (errorResponse t) :=
  c10_flashcard_none_topic_error (stateOf exNoTopic) exNoTopic rfl rfl rfl rfl
    stubFlashcardTool

end Tutor
